import Mathlib

/-!
Shallow embedding of `src/BannisterV4.ino` (bannister stair-light controller).

The embedding follows the source file:
* compile-time constants (`NUM_LEDS`, the four light thresholds);
* the mode classifier `setLedMode` (both on the `LedMode` enumeration and on
  its raw underlying integer, to capture the `default:` branch of the switch);
* the dispatch `loop` body, with the animation routines abstracted to an
  event trace (`Ev`): which animation runs, and which blocking delays elapse;
* the frame-level animation routines `doPink`, `lightsFromTop`,
  `lightsFromBottom`, where the LED buffer is a total function
  `Nat → CHSV` whose meaningful indices are `0 .. NUM_LEDS - 1`; loops are
  translated to structural recursions that present the same frames in the
  same order, with `uint8_t` arithmetic made explicit (`% 256`).
-/

/-- `const uint8_t NUM_LEDS = 113`. -/
def NUM_LEDS : Nat := 113

/-- `const uint16_t THRESHOLD_NIGHT = 100`. -/
def THRESHOLD_NIGHT : Nat := 100

/-- `const uint16_t THRESHOLD_MORNING = 300`. -/
def THRESHOLD_MORNING : Nat := 300

/-- `const uint16_t THRESHOLD_DAY = 500`. -/
def THRESHOLD_DAY : Nat := 500

/-- `const uint16_t THRESHOLD_EVENING = 300`. -/
def THRESHOLD_EVENING : Nat := 300

/-- `enum class LedMode { NIGHT, MORNING, DAY, EVENING }`. -/
inductive LedMode
  | NIGHT
  | MORNING
  | DAY
  | EVENING
deriving DecidableEq, Repr

/-- Underlying integer value of each enumerator (C++ gives them 0,1,2,3). -/
def LedMode.toNat : LedMode → Nat
  | .NIGHT => 0
  | .MORNING => 1
  | .DAY => 2
  | .EVENING => 3

/-- `setLedMode` on the `LedMode` enumeration.  Each `case` of the C++
switch is translated literally; a case with two successive guarded
assignments to `mode` (MORNING, EVENING) becomes two nested bindings in
the same order, so the later assignment wins, exactly as in C++. -/
def setLedMode (mode : LedMode) (lightLevel : Nat) : LedMode :=
  match mode with
  | .NIGHT =>
      -- the only way out from night is morning
      if THRESHOLD_MORNING < lightLevel then .MORNING else .NIGHT
  | .MORNING =>
      -- first `if (lightLevel > THRESHOLD_DAY) mode = DAY;`
      let m1 := if THRESHOLD_DAY < lightLevel then LedMode.DAY else LedMode.MORNING
      -- then `if (lightLevel < THRESHOLD_NIGHT) mode = NIGHT;`
      if lightLevel < THRESHOLD_NIGHT then LedMode.NIGHT else m1
  | .DAY =>
      -- the only way out from day is evening
      if lightLevel < THRESHOLD_EVENING then .EVENING else .DAY
  | .EVENING =>
      -- first `if (lightLevel < THRESHOLD_NIGHT) mode = NIGHT;`
      let m1 := if lightLevel < THRESHOLD_NIGHT then LedMode.NIGHT else LedMode.EVENING
      -- then `if (lightLevel > THRESHOLD_DAY) mode = DAY;`
      if THRESHOLD_DAY < lightLevel then LedMode.DAY else m1

/-- `setLedMode` on the raw underlying integer of the enum, including the
`default:` branch of the switch (`mode = LedMode::NIGHT`), which is
reachable only from an out-of-enum stored value (≥ 4). -/
def setLedModeRaw : Nat → Nat → Nat
  | 0, lightLevel => if THRESHOLD_MORNING < lightLevel then 1 else 0
  | 1, lightLevel =>
      let m1 := if THRESHOLD_DAY < lightLevel then 2 else 1
      if lightLevel < THRESHOLD_NIGHT then 0 else m1
  | 2, lightLevel => if lightLevel < THRESHOLD_EVENING then 3 else 2
  | 3, lightLevel =>
      let m1 := if lightLevel < THRESHOLD_NIGHT then 0 else 3
      if THRESHOLD_DAY < lightLevel then 2 else m1
  | _ + 4, _ => 0

/-- Iterated classifier: feed a list of intensity readings one at a time,
as successive dispatch-loop iterations do. -/
def runModes (mode : LedMode) : List Nat → LedMode
  | [] => mode
  | i :: rest => runModes (setLedMode mode i) rest

theorem setLedModeRaw_toNat (m : LedMode) (i : Nat) :
    setLedModeRaw (LedMode.toNat m) i = LedMode.toNat (setLedMode m i) := by
  cases m <;> simp only [LedMode.toNat, setLedMode, setLedModeRaw] <;>
    split_ifs <;> rfl

/-- Claim C1: the mode classifier implements exactly the stated total
transition function — Night→Morning iff intensity > 300 else Night;
Morning→Day iff > 500, →Night iff < 100, else Morning; Day→Evening iff
< 300 else Day; Evening→Night iff < 100, →Day iff > 500, else Evening;
any out-of-enum stored mode value yields Night; and every (mode,
intensity) pair yields one of the four valid modes. -/
theorem C1_nextMode_transition :
    (∀ i, setLedMode .NIGHT i = if 300 < i then .MORNING else .NIGHT) ∧
    (∀ i, setLedMode .MORNING i =
      if 500 < i then .DAY else if i < 100 then .NIGHT else .MORNING) ∧
    (∀ i, setLedMode .DAY i = if i < 300 then .EVENING else .DAY) ∧
    (∀ i, setLedMode .EVENING i =
      if i < 100 then .NIGHT else if 500 < i then .DAY else .EVENING) ∧
    (∀ m i, 4 ≤ m → setLedModeRaw m i = 0) ∧
    (∀ m i, setLedModeRaw m i < 4) := by
  refine ⟨?_, ?_, ?_, ?_, ?_, ?_⟩
  · intro i
    simp only [setLedMode, THRESHOLD_MORNING]
  · intro i
    simp only [setLedMode, THRESHOLD_DAY, THRESHOLD_NIGHT]
    split_ifs <;> first | rfl | omega
  · intro i
    simp only [setLedMode, THRESHOLD_EVENING]
  · intro i
    simp only [setLedMode, THRESHOLD_DAY, THRESHOLD_NIGHT]
    split_ifs <;> first | rfl | omega
  · intro m i h
    match m with
    | n + 4 => rfl
  · intro m i
    match m with
    | 0 => simp only [setLedModeRaw]; split_ifs <;> omega
    | 1 => simp only [setLedModeRaw]; split_ifs <;> omega
    | 2 => simp only [setLedModeRaw]; split_ifs <;> omega
    | 3 => simp only [setLedModeRaw]; split_ifs <;> omega
    | n + 4 => simp only [setLedModeRaw]; omega

theorem C1_nextMode_transition_witness :
    (4 ≤ 7 ∧ setLedModeRaw 7 200 = 0) ∧ setLedModeRaw 2 250 < 4 :=
  ⟨⟨by decide, C1_nextMode_transition.2.2.2.2.1 7 200 (by decide)⟩,
    C1_nextMode_transition.2.2.2.2.2 2 250⟩

/-- Claim C2 counterexample: the claim asserts that from Morning at
intensity exactly 100 the classifier yields Night; in the code the
condition is `lightLevel < THRESHOLD_NIGHT`, i.e. strictly less than 100,
which 100 does not satisfy, so the classifier stays in Morning. -/
theorem C2_boundary_counterexample :
    setLedMode .MORNING 100 = .MORNING ∧ setLedMode .MORNING 100 ≠ .NIGHT := by
  constructor
  · rfl
  · decide

/-- Claim C2 (amended): from Night at intensity exactly 300 the result is
Night (the Night→Morning condition is strictly greater-than 300); from
Morning at intensity exactly 100 the result is Morning, because the
Morning→Night condition is strictly less-than 100 (at intensity 99 it
does yield Night). -/
theorem C2_boundary_amended :
    setLedMode .NIGHT 300 = .NIGHT ∧
    setLedMode .MORNING 100 = .MORNING ∧
    setLedMode .MORNING 99 = .NIGHT := by
  refine ⟨rfl, rfl, rfl⟩

/-- Claim C7: hysteresis as a never-property of the classifier step
relation: from Day, any sequence of readings drawn from {350, 450} never
leaves Day; from Evening, the same oscillation never leaves Evening. -/
theorem C7_hysteresis (is : List Nat) (h : ∀ i ∈ is, i = 350 ∨ i = 450) :
    runModes .DAY is = .DAY ∧ runModes .EVENING is = .EVENING := by
  induction is with
  | nil => exact ⟨rfl, rfl⟩
  | cons a rest ih =>
      have ha := h a (List.mem_cons_self a rest)
      have hr : ∀ i ∈ rest, i = 350 ∨ i = 450 :=
        fun i hi => h i (List.mem_cons_of_mem a hi)
      have hDay : setLedMode .DAY a = .DAY := by
        rcases ha with h1 | h1 <;> subst h1 <;> rfl
      have hEve : setLedMode .EVENING a = .EVENING := by
        rcases ha with h1 | h1 <;> subst h1 <;> rfl
      refine ⟨?_, ?_⟩
      · show runModes (setLedMode .DAY a) rest = .DAY
        rw [hDay]; exact (ih hr).1
      · show runModes (setLedMode .EVENING a) rest = .EVENING
        rw [hEve]; exact (ih hr).2

theorem C7_hysteresis_witness :
    (∀ i ∈ [350, 450, 350, 450], i = 350 ∨ i = 450) ∧
    runModes .DAY [350, 450, 350, 450] = .DAY ∧
    runModes .EVENING [350, 450, 350, 450] = .EVENING :=
  ⟨by decide, (C7_hysteresis [350, 450, 350, 450] (by decide)).1,
    (C7_hysteresis [350, 450, 350, 450] (by decide)).2⟩

/-!
Event-trace view of the dispatch loop.  An animation routine call (with
its brightness parameter where the source passes one) and a blocking
`delay(ms)` are the observable events of one `loop()` iteration; the
frame-level content of each animation is embedded separately below.
-/

/-- The named animation routines of the source. -/
inductive Anim
  | PinkFade (brightness : Nat)   -- `doPink(brightness)`
  | Rainbow (brightness : Nat)    -- `doRainbow(brightness)`
  | FromTop                       -- `lightsFromTop()`
  | FromBottom                    -- `lightsFromBottom()`
deriving DecidableEq, Repr

/-- An observable event of a dispatch-loop iteration. -/
inductive Ev
  | run (a : Anim)
  | delayMs (ms : Nat)
deriving DecidableEq, Repr

/-- `doDayRoutine`: `motionDetected = digitalRead(UPPER) || digitalRead(LOWER)`;
on motion, `doPink(80); delay(5000);` (the `doRainbow(250)` call is
commented out in the source). -/
def doDayRoutine (upper lower : Bool) : List Ev :=
  if upper || lower then [Ev.run (Anim.PinkFade 80), Ev.delayMs 5000] else []

/-- `doMorningRoutine`: on motion, `doRainbow(250); delay(5000);`.
Declared in the source but never called from `loop()`. -/
def doMorningRoutine (upper lower : Bool) : List Ev :=
  if upper || lower then [Ev.run (Anim.Rainbow 250), Ev.delayMs 5000] else []

/-- `doNightRoutine`: reads both sensors at entry, then two independent
`if`s — lower motion runs `lightsFromBottom(); delay(2500);`, upper motion
runs `lightsFromTop(); delay(2500);`, in that order. -/
def doNightRoutine (upper lower : Bool) : List Ev :=
  (if lower then [Ev.run Anim.FromBottom, Ev.delayMs 2500] else []) ++
  (if upper then [Ev.run Anim.FromTop, Ev.delayMs 2500] else [])

/-- `doEveningRoutine` — `//same as night routine` — calls `doNightRoutine()`. -/
def doEveningRoutine (upper lower : Bool) : List Ev :=
  doNightRoutine upper lower

/-- The `switch (mode)` of `loop()` on the raw mode value: MORNING and DAY
fall through to `doDayRoutine`, NIGHT to `doNightRoutine`, EVENING to
`doEveningRoutine`; the `default:` branch only resets the mode and runs
nothing. -/
def dispatchRaw (m : Nat) (upper lower : Bool) : List Ev :=
  match m with
  | 1 | 2 => doDayRoutine upper lower
  | 0 => doNightRoutine upper lower
  | 3 => doEveningRoutine upper lower
  | _ + 4 => []

/-- Same switch on the `LedMode` enumeration (its `default:` is
unreachable for enum values). -/
def dispatch (m : LedMode) (upper lower : Bool) : List Ev :=
  match m with
  | .MORNING | .DAY => doDayRoutine upper lower
  | .NIGHT => doNightRoutine upper lower
  | .EVENING => doEveningRoutine upper lower

/-- One `loop()` iteration: `mode = setLedMode(analogRead(...)); switch (mode) ...`,
as the list of events it emits, on the raw mode value. -/
def loopEventsRaw (mode intensity : Nat) (upper lower : Bool) : List Ev :=
  dispatchRaw (setLedModeRaw mode intensity) upper lower

/-- One `loop()` iteration on the `LedMode` enumeration. -/
def loopEvents (mode : LedMode) (intensity : Nat) (upper lower : Bool) : List Ev :=
  dispatch (setLedMode mode intensity) upper lower

/-- Total blocking delay of an event list, in milliseconds. -/
def delaySum (evs : List Ev) : Nat :=
  (evs.map fun e => match e with | .delayMs d => d | .run _ => 0).sum

/-- `doNightRoutine` against a time-varying sensor model: `upper t` and
`lower t` are the states of the two motion lines at time `t`, and the
routine performs its two `digitalRead`s at its entry time, before either
animation starts; nothing later in the routine reads the sensors again. -/
def doNightRoutineTimed (upper lower : Nat → Bool) (t : Nat) : List Ev :=
  let motionUpperDetected := upper t
  let motionLowerDetected := lower t
  (if motionLowerDetected then [Ev.run Anim.FromBottom, Ev.delayMs 2500] else []) ++
  (if motionUpperDetected then [Ev.run Anim.FromTop, Ev.delayMs 2500] else [])

/-- Claim C4 counterexample: in a dispatch iteration whose mode is Day
(here: mode stays Day at intensity 400) with lower-zone motion true and
upper-zone motion false, the events are the pink fade and its delay;
`lightsFromBottom` does NOT run, contrary to the claim. -/
theorem C4_day_dispatch_counterexample :
    setLedMode .DAY 400 = .DAY ∧
    loopEvents .DAY 400 false true = [Ev.run (Anim.PinkFade 80), Ev.delayMs 5000] ∧
    Ev.run Anim.FromBottom ∉ loopEvents .DAY 400 false true := by
  refine ⟨rfl, rfl, by decide⟩

/-- Claim C4 (amended): in a dispatch iteration where the mode is Day,
lower-zone motion true and upper-zone motion false, the day routine runs
the pink-fade animation `doPink(80)` followed by a 5000 ms delay; neither
the "fill from bottom" nor the "fill from top" animation runs. -/
theorem C4_day_dispatch_amended (m : LedMode) (i : Nat)
    (hm : setLedMode m i = .DAY) :
    loopEvents m i false true = [Ev.run (Anim.PinkFade 80), Ev.delayMs 5000] ∧
    Ev.run Anim.FromBottom ∉ loopEvents m i false true ∧
    Ev.run Anim.FromTop ∉ loopEvents m i false true := by
  unfold loopEvents
  rw [hm]
  exact ⟨rfl, by decide, by decide⟩

theorem C4_day_dispatch_amended_witness :
    setLedMode .DAY 400 = .DAY ∧
    Ev.run Anim.FromTop ∉ loopEvents .DAY 400 false true :=
  ⟨by decide, (C4_day_dispatch_amended .DAY 400 (by decide)).2.2⟩

theorem dispatchRaw_no_rainbow (k : Nat) (u l : Bool) (bright : Nat) :
    Ev.run (Anim.Rainbow bright) ∉ dispatchRaw k u l := by
  match k with
  | 0 => cases u <;> cases l <;>
      simp [dispatchRaw, doNightRoutine, doDayRoutine, doEveningRoutine]
  | 1 => cases u <;> cases l <;>
      simp [dispatchRaw, doNightRoutine, doDayRoutine, doEveningRoutine]
  | 2 => cases u <;> cases l <;>
      simp [dispatchRaw, doNightRoutine, doDayRoutine, doEveningRoutine]
  | 3 => cases u <;> cases l <;>
      simp [dispatchRaw, doNightRoutine, doDayRoutine, doEveningRoutine]
  | n + 4 => exact List.not_mem_nil _

/-- Claim C6: the dispatch loop routes Night and Evening to the same
shared night routine (`doEveningRoutine` is behaviourally identical to
`doNightRoutine`); Morning is routed to the day routine, which invokes
the pink fade on motion; and the Rainbow animation is never invoked from
the dispatch loop for any stored mode value and any sensor input. -/
theorem C6_routing :
    (∀ u l, doEveningRoutine u l = doNightRoutine u l) ∧
    (∀ m i u l, setLedModeRaw m i = 1 →
      loopEventsRaw m i u l = doDayRoutine u l) ∧
    (∀ u l, (u || l) = true → Ev.run (Anim.PinkFade 80) ∈ doDayRoutine u l) ∧
    (∀ m i u l bright, Ev.run (Anim.Rainbow bright) ∉ loopEventsRaw m i u l) := by
  refine ⟨fun u l => rfl, ?_, ?_, ?_⟩
  · intro m i u l h
    unfold loopEventsRaw
    rw [h]
    rfl
  · intro u l h
    cases u <;> cases l <;> simp_all [doDayRoutine]
  · intro m i u l bright
    exact dispatchRaw_no_rainbow (setLedModeRaw m i) u l bright

theorem C6_routing_witness :
    loopEventsRaw 0 350 true false = doDayRoutine true false ∧
    Ev.run (Anim.PinkFade 80) ∈ doDayRoutine true false ∧
    Ev.run (Anim.Rainbow 250) ∉ loopEventsRaw 1 600 true true :=
  ⟨C6_routing.2.1 0 350 true false (by decide),
    C6_routing.2.2.1 true false (by decide),
    C6_routing.2.2.2 1 600 true true 250⟩

/-- Claim C9: with both zones reporting motion, one invocation of the
night routine fires both fill animations sequentially — `lightsFromBottom`
then its 2500 ms delay, then `lightsFromTop` then its own 2500 ms delay —
doubling the total blocking delay relative to a single-zone trigger, and
neither animation excludes the other. -/
theorem C9_both_zones_sequential :
    doNightRoutine true true =
      [Ev.run Anim.FromBottom, Ev.delayMs 2500,
        Ev.run Anim.FromTop, Ev.delayMs 2500] ∧
    delaySum (doNightRoutine true true) =
      2 * delaySum (doNightRoutine false true) ∧
    Ev.run Anim.FromBottom ∈ doNightRoutine true true ∧
    Ev.run Anim.FromTop ∈ doNightRoutine true true := by
  refine ⟨rfl, rfl, by decide, by decide⟩

/-- Claim C10: the night routine's animation decisions depend only on the
sensor lines' values at routine entry (both `digitalRead`s happen at entry,
before any animation), so upper-zone motion that begins only after entry —
`upper t = false` at the entry instant `t`, whatever `upper` is later —
never triggers the "fill from top" animation within that invocation. -/
theorem C10_entry_sampling (upper lower : Nat → Bool) (t : Nat)
    (h : upper t = false) :
    doNightRoutineTimed upper lower t = doNightRoutine (upper t) (lower t) ∧
    Ev.run Anim.FromTop ∉ doNightRoutineTimed upper lower t := by
  refine ⟨rfl, ?_⟩
  unfold doNightRoutineTimed
  rw [h]
  cases lower t <;> decide

theorem C10_entry_sampling_witness :
    (fun s => decide (0 < s)) 0 = false ∧
    Ev.run Anim.FromTop ∉
      doNightRoutineTimed (fun s => decide (0 < s)) (fun _ => true) 0 :=
  ⟨by decide,
    (C10_entry_sampling (fun s => decide (0 < s)) (fun _ => true) 0 (by decide)).2⟩

/-!
Frame-level embedding.  A pixel is a hue/saturation/value triple (the
`CHSV` values the source assigns into `leds[]`); the LED buffer is a total
function `Nat → CHSV` whose meaningful indices are `0 .. NUM_LEDS - 1`.
`FastLED.clear(true)` zeroes the buffer (`cleared` everywhere) and
transmits it.  Loops become structural recursions presenting the same
frames in the same order; `uint8_t` wrap-around is written out as `% 256`.
-/

/-- A `CHSV(hue, saturation, value)` pixel value. -/
structure CHSV where
  hue : Nat
  sat : Nat
  val : Nat
deriving DecidableEq, Repr

/-- The zeroed pixel `FastLED.clear` leaves behind (black, off). -/
def cleared : CHSV := ⟨0, 0, 0⟩

/-- The all-dark buffer after `FastLED.clear(true)`. -/
def clearBuf : Nat → CHSV := fun _ => cleared

/-- `leds[i] = c`. -/
def setPixel (b : Nat → CHSV) (i : Nat) (c : CHSV) : Nat → CHSV :=
  fun j => if j = i then c else b j

/-- `uint8_t hueFactor = 255 / NUM_LEDS` (integer division). -/
def hueFactor : Nat := 255 / NUM_LEDS

/-- `uint8_t color = led * hueFactor` (the `% 256` is the `uint8_t`
truncation; for `led < NUM_LEDS` the product never exceeds 255). -/
def gradHue (led : Nat) : Nat := (led * hueFactor) % 256

/-- The gradient pixel written by both fill animations' growth phase:
`CHSV(color, 255, 60)`. -/
def gradLit (led : Nat) : CHSV := ⟨gradHue led, 255, 60⟩

/-- Inner loop of `lightsFromTop`'s growth phase:
`for (led = 0; led < length; ++led) leds[led] = CHSV(led*hueFactor,255,60);`
`topInner b n` is the buffer after the writes for `led = 0 .. n-1`. -/
def topInner (b : Nat → CHSV) : Nat → (Nat → CHSV)
  | 0 => b
  | n + 1 => setPixel (topInner b n) n (gradLit n)

/-- Outer growth loop of `lightsFromTop`:
`for (length = 0; length < NUM_LEDS; ++length) { inner; FastLED.show(); delay(10); }`.
`topLoop b n` returns the list of presented frames of the first `n`
iterations (in order) and the buffer after them. -/
def topLoop (b : Nat → CHSV) : Nat → (List (Nat → CHSV) × (Nat → CHSV))
  | 0 => ([], b)
  | n + 1 =>
      let p := topLoop b n
      let b2 := topInner p.2 n
      (p.1 ++ [b2], b2)

/-- The frame `lightsFromTop` presents at lit-length `L` (iteration with
`length = L`), starting from entry buffer `b`. -/
def topFrame (b : Nat → CHSV) (L : Nat) : Nat → CHSV :=
  (topLoop b (L + 1)).2

/-- Buffer state when `lightsFromTop` reaches its `delay(40000)` dwell,
having entered with a cleared strip. -/
def topDwellBuffer : Nat → CHSV := (topLoop clearBuf NUM_LEDS).2

/-- Inner loop of `lightsFromBottom`'s growth phase:
`for (led = NUM_LEDS - 1; led > length; --led) leds[led] = CHSV(led*hueFactor,255,60);`
translated as a countdown on `led` with bound `length`. -/
def botWrite (bound : Nat) : Nat → (Nat → CHSV) → (Nat → CHSV)
  | 0, b => b
  | led + 1, b =>
      if bound < led + 1 then
        botWrite bound led (setPixel b (led + 1) (gradLit (led + 1)))
      else b

/-- Outer growth loop of `lightsFromBottom`:
`for (length = NUM_LEDS - 1; length > 0; --length) { inner; FastLED.show(); delay(10); }`.
`botLoop b n` runs the iterations with `length = n, n-1, .., 1`, returning
the presented frames in order and the final buffer. -/
def botLoop : (Nat → CHSV) → Nat → (List (Nat → CHSV) × (Nat → CHSV))
  | b, 0 => ([], b)
  | b, l + 1 =>
      let b2 := botWrite (l + 1) (NUM_LEDS - 1) b
      let p := botLoop b2 l
      (b2 :: p.1, p.2)

/-- Buffer state when `lightsFromBottom` reaches its `delay(40000)` dwell,
having entered with a cleared strip. -/
def botDwellBuffer : Nat → CHSV := (botLoop clearBuf (NUM_LEDS - 1)).2

/-- One frame of the shared fade-out phase:
`for (led = 0; led < NUM_LEDS; ++led) leds[led] = CHSV(led*hueFactor,255,brightness);`. -/
def fadeAll (b : Nat → CHSV) (brightness : Nat) : Nat → CHSV :=
  fun i => if i < NUM_LEDS then ⟨gradHue i, 255, brightness⟩ else b i

/-- The fade-out loop shared by both fill routines:
`for (brightness = 60; brightness > 0; --brightness) { fill; show; delay(20); }`,
run here from a given starting brightness down to 1. -/
def fadeLoop (b : Nat → CHSV) : Nat → (List (Nat → CHSV) × (Nat → CHSV))
  | 0 => ([], b)
  | n + 1 =>
      let b2 := fadeAll b (n + 1)
      let p := fadeLoop b2 n
      (b2 :: p.1, p.2)

/-- A presented frame, a blocking wait, or `FastLED.clear(true)`. -/
inductive FrameEv
  | present (b : Nat → CHSV)
  | wait (ms : Nat)
  | clearShow

def FrameEv.isPresent : FrameEv → Bool
  | .present _ => true
  | _ => false

def FrameEv.isWait (ms : Nat) : FrameEv → Bool
  | .wait d => ms = d
  | _ => false

/-- Full observable trace of `lightsFromTop` from entry buffer `b0`:
growth frames (10 ms apart), the 40 s dwell, fade-out frames (20 ms
apart), final clear-and-show. -/
def lightsFromTopTrace (b0 : Nat → CHSV) : List FrameEv :=
  let growth := topLoop b0 NUM_LEDS
  let fade := fadeLoop growth.2 60
  (growth.1.map fun f => [FrameEv.present f, FrameEv.wait 10]).flatten ++
  [FrameEv.wait 40000] ++
  (fade.1.map fun f => [FrameEv.present f, FrameEv.wait 20]).flatten ++
  [FrameEv.clearShow]

/-- Full observable trace of `lightsFromBottom` from entry buffer `b0`. -/
def lightsFromBottomTrace (b0 : Nat → CHSV) : List FrameEv :=
  let growth := botLoop b0 (NUM_LEDS - 1)
  let fade := fadeLoop growth.2 60
  (growth.1.map fun f => [FrameEv.present f, FrameEv.wait 10]).flatten ++
  [FrameEv.wait 40000] ++
  (fade.1.map fun f => [FrameEv.present f, FrameEv.wait 20]).flatten ++
  [FrameEv.clearShow]

/-- `uint8_t` subtraction of 1: `x - 1` wraps to 255 at `x = 0`. -/
def uint8Sub1 (x : Nat) : Nat := (x + 255) % 256

/-- Fill of the whole strip with `CHSV(200, 255, level)`, as `doPink`'s
inner loops do. -/
def pinkFill (b : Nat → CHSV) (level : Nat) : Nat → CHSV :=
  fun i => if i < NUM_LEDS then ⟨200, 255, level⟩ else b i

/-- Rise loop of `doPink`:
`for (level = 0; level < brightness; ++level) { fill; show; delay(20); }`.
`pinkRiseLoop b n` gives the frames of the first `n` iterations
(levels `0 .. n-1`) and the buffer after them. -/
def pinkRiseLoop (b : Nat → CHSV) : Nat → (List (Nat → CHSV) × (Nat → CHSV))
  | 0 => ([], b)
  | n + 1 =>
      let p := pinkRiseLoop b n
      let b2 := pinkFill p.2 n
      (p.1 ++ [b2], b2)

/-- Fall loop of `doPink`:
`for (level = brightness - 1; level > 0; --level) { fill; show; delay(20); }`,
run here from a given starting level down to 1. -/
def pinkFallLoop (b : Nat → CHSV) : Nat → (List (Nat → CHSV) × (Nat → CHSV))
  | 0 => ([], b)
  | l + 1 =>
      let b2 := pinkFill b (l + 1)
      let p := pinkFallLoop b2 l
      (b2 :: p.1, p.2)

/-- Full observable trace of `doPink(brightness)` from entry buffer `b0`:
rise frames, the 40 s hold, fall frames starting at the `uint8_t` value
`brightness - 1`, final clear-and-show. -/
def doPinkTrace (b0 : Nat → CHSV) (brightness : Nat) : List FrameEv :=
  let rise := pinkRiseLoop b0 brightness
  let fall := pinkFallLoop rise.2 (uint8Sub1 brightness)
  (rise.1.map fun f => [FrameEv.present f, FrameEv.wait 20]).flatten ++
  [FrameEv.wait 40000] ++
  (fall.1.map fun f => [FrameEv.present f, FrameEv.wait 20]).flatten ++
  [FrameEv.clearShow]

theorem gradLit_ne_cleared (i : Nat) : gradLit i ≠ cleared := by
  simp [gradLit, cleared]

theorem topInner_apply (n : Nat) (b : Nat → CHSV) (i : Nat) :
    topInner b n i = if i < n then gradLit i else b i := by
  induction n with
  | zero => simp [topInner]
  | succ n ih =>
      simp only [topInner, setPixel]
      rcases eq_or_ne i n with h | h
      · subst h
        simp
      · rw [if_neg h, ih]
        by_cases h2 : i < n
        · rw [if_pos h2, if_pos (by omega)]
        · rw [if_neg h2, if_neg (by omega)]

theorem topLoop_snd_apply (n : Nat) (b : Nat → CHSV) (i : Nat) :
    (topLoop b (n + 1)).2 i = if i < n then gradLit i else b i := by
  induction n with
  | zero => simp [topLoop, topInner]
  | succ n ih =>
      show topInner (topLoop b (n + 1)).2 (n + 1) i = _
      rw [topInner_apply, ih]
      by_cases h1 : i < n + 1
      · simp [h1]
      · rw [if_neg h1, if_neg (by omega), if_neg (by omega)]

theorem topLoop_fst_length (n : Nat) (b : Nat → CHSV) :
    (topLoop b n).1.length = n := by
  induction n with
  | zero => rfl
  | succ n ih =>
      show ((topLoop b n).1 ++ [(topLoop b (n + 1)).2]).length = n + 1
      simp [ih]

theorem topLoop_fst_get (n L : Nat) (b : Nat → CHSV) (h : L < n) :
    ((topLoop b n).1)[L]? = some ((topLoop b (L + 1)).2) := by
  induction n with
  | zero => omega
  | succ n ih =>
      show ((topLoop b n).1 ++ [(topLoop b (n + 1)).2])[L]? = _
      rw [List.getElem?_append, topLoop_fst_length]
      rcases Nat.lt_or_ge L n with h2 | h2
      · rw [if_pos h2]
        exact ih h2
      · have hLn : L = n := by omega
        subst hLn
        rw [if_neg (by omega)]
        simp

theorem botWrite_apply (led bound : Nat) (b : Nat → CHSV) (i : Nat) :
    botWrite bound led b i =
      if bound < i ∧ i ≤ led then gradLit i else b i := by
  induction led generalizing b with
  | zero =>
      simp only [botWrite]
      rw [if_neg (by omega)]
  | succ led ih =>
      simp only [botWrite]
      by_cases h : bound < led + 1
      · rw [if_pos h, ih]
        simp only [setPixel]
        by_cases h1 : bound < i ∧ i ≤ led
        · rw [if_pos h1, if_pos (by omega)]
        · rw [if_neg h1]
          by_cases h2 : i = led + 1
          · subst h2
            rw [if_pos rfl, if_pos (by omega)]
          · rw [if_neg h2, if_neg (by omega)]
      · rw [if_neg h, if_neg (by omega)]

theorem botLoop_succ_snd (b : Nat → CHSV) (l : Nat) :
    (botLoop b (l + 1)).2 = (botLoop (botWrite (l + 1) (NUM_LEDS - 1) b) l).2 :=
  rfl

theorem botLoop_zero_snd (b : Nat → CHSV) : (botLoop b 0).2 = b :=
  rfl

theorem botLoop_snd_apply (n : Nat) (b : Nat → CHSV) (i : Nat) :
    (botLoop b (n + 1)).2 i =
      if 2 ≤ i ∧ i ≤ NUM_LEDS - 1 then gradLit i else b i := by
  induction n generalizing b with
  | zero =>
      rw [botLoop_succ_snd, botLoop_zero_snd, botWrite_apply]
      by_cases h : 2 ≤ i ∧ i ≤ NUM_LEDS - 1
      · rw [if_pos (by omega), if_pos h]
      · rw [if_neg (by omega), if_neg h]
  | succ n ih =>
      rw [botLoop_succ_snd, ih, botWrite_apply]
      by_cases h : 2 ≤ i ∧ i ≤ NUM_LEDS - 1
      · rw [if_pos h, if_pos h]
      · rw [if_neg h, if_neg (by omega), if_neg h]

theorem topDwellBuffer_apply (i : Nat) :
    topDwellBuffer i = if i < NUM_LEDS - 1 then gradLit i else cleared := by
  show (topLoop clearBuf (112 + 1)).2 i = _
  rw [topLoop_snd_apply]
  show (if i < 112 then gradLit i else cleared) = _
  rfl

theorem botDwellBuffer_apply (i : Nat) :
    botDwellBuffer i =
      if 2 ≤ i ∧ i ≤ NUM_LEDS - 1 then gradLit i else cleared := by
  show (botLoop clearBuf (111 + 1)).2 i = _
  rw [botLoop_snd_apply]
  rfl

/-- Claim C5 refutation (the code bug it exposes): when the 40-second
dwell of `lightsFromTop` begins, the last pixel (index `NUM_LEDS - 1`) is
still in the cleared state, not lit at brightness 60 — the growth loop
(`length < NUM_LEDS` outside, `led < length` inside) never writes it; and
when the dwell of `lightsFromBottom` begins, pixels 0 and 1 are still
cleared (`length > 0` outside, `led > length` inside), so the lit region
never reaches index 0.  The other pixels do carry their gradient color. -/
theorem C5_growth_never_full :
    topDwellBuffer (NUM_LEDS - 1) = cleared ∧
    topDwellBuffer (NUM_LEDS - 2) = gradLit (NUM_LEDS - 2) ∧
    botDwellBuffer 0 = cleared ∧
    botDwellBuffer 1 = cleared ∧
    botDwellBuffer 2 = gradLit 2 ∧
    botDwellBuffer (NUM_LEDS - 1) = gradLit (NUM_LEDS - 1) ∧
    gradLit (NUM_LEDS - 1) ≠ cleared ∧
    gradLit 0 ≠ cleared := by
  refine ⟨?_, ?_, ?_, ?_, ?_, ?_, gradLit_ne_cleared _, gradLit_ne_cleared _⟩ <;>
    simp [topDwellBuffer_apply, botDwellBuffer_apply, NUM_LEDS]

/-- Claim C8: frame invariant of the "from top" growth phase, entered
with a cleared buffer: the frame presented at lit-length `L` (the `L`-th
presented frame) holds the gradient color `CHSV(i * (255 / NUM_LEDS), 255, 60)`
— which differs from the cleared pixel — at every index `i < L`, and the
cleared (unchanged) pixel at every index `i ≥ L`. -/
theorem C8_topFill_frame_invariant (L : Nat) (hL : L < NUM_LEDS) :
    ((topLoop clearBuf NUM_LEDS).1)[L]? = some (topFrame clearBuf L) ∧
    (∀ i, i < L → topFrame clearBuf L i = gradLit i ∧
      topFrame clearBuf L i ≠ cleared) ∧
    (∀ i, L ≤ i → topFrame clearBuf L i = cleared) := by
  refine ⟨topLoop_fst_get NUM_LEDS L clearBuf hL, ?_, ?_⟩
  · intro i hi
    have h := topLoop_snd_apply L clearBuf i
    rw [if_pos hi] at h
    exact ⟨h, by rw [show topFrame clearBuf L i = _ from h]; exact gradLit_ne_cleared i⟩
  · intro i hi
    have h := topLoop_snd_apply L clearBuf i
    rw [if_neg (by omega)] at h
    exact h

theorem C8_topFill_frame_invariant_witness :
    5 < NUM_LEDS ∧
    ((topLoop clearBuf NUM_LEDS).1)[5]? = some (topFrame clearBuf 5) ∧
    topFrame clearBuf 5 2 = gradLit 2 ∧
    topFrame clearBuf 5 7 = cleared :=
  ⟨by decide, (C8_topFill_frame_invariant 5 (by decide)).1,
    ((C8_topFill_frame_invariant 5 (by decide)).2.1 2 (by decide)).1,
    (C8_topFill_frame_invariant 5 (by decide)).2.2 7 (by decide)⟩

set_option maxRecDepth 40000 in
/-- Claim C3 and the code bug it exposes, evaluated at `doPink(0)` on a
cleared strip: the rise loop indeed renders zero frames and the hold and
the final clear-and-show do occur, but the routine does not degenerate to
hold+clear — the fall loop's `uint8_t level = brightness - 1` wraps to
255, so 255 further frames are presented between the hold and the clear. -/
theorem C3_pink_zero_underflow :
    (pinkRiseLoop clearBuf 0).1 = [] ∧
    uint8Sub1 0 = 255 ∧
    (doPinkTrace clearBuf 0).countP FrameEv.isPresent = 255 ∧
    (doPinkTrace clearBuf 0).countP (FrameEv.isWait 40000) = 1 ∧
    (doPinkTrace clearBuf 0).getLast? = some FrameEv.clearShow := by
  refine ⟨rfl, rfl, ?_, ?_, ?_⟩ <;> rfl
